import Mathlib

/-!
Verification of the Cloudflare challenge-bypass subsystem of the
company-scraper repository.  Strings from the Python source are modelled
as lists of characters; Python's Unicode-aware character classes
(str.isalnum, the regex class of digits and ASCII letters, str.lower)
are modelled over ASCII, which covers every concrete value the code
compares against.  Fallible operations are modelled with Option, file
system state is passed explicitly, and the network is modelled as an
oracle argument.
-/

namespace CompanyScraper

/-- ASCII alphanumeric test: Python str.isalnum restricted to ASCII,
which coincides with the regex character class of digits, uppercase and
lowercase letters used throughout cloudflareSolver.py. -/
def isAlnumChar (c : Char) : Bool :=
  c.isAlpha || c.isDigit

/-- Lowercase a string, modelling Python str.lower over ASCII. -/
def lowerL (s : List Char) : List Char :=
  s.map Char.toLower

/-- beginsWith s p is true when p is an initial segment of s
(Python str.startswith). -/
def beginsWith : List Char → List Char → Bool
  | _, [] => true
  | [], _ :: _ => false
  | a :: as, b :: bs => a = b && beginsWith as bs

/-- containsSub sub l is true when sub occurs contiguously inside l
(the Python `in` test on strings). -/
def containsSub : List Char → List Char → Bool
  | sub, [] => beginsWith [] sub
  | sub, l@(_ :: t) => beginsWith l sub || containsSub sub t

/-- Model of _is_valid_turnstile_sitekey (src/cloudflareSolver.py lines
118-142): reject the empty string and lengths outside 22..35; require
the lowercased string to start with 0x; inside the length band 22..30
accept exactly when every character after the prefix is alphanumeric;
all remaining cases fall through to False. -/
def is_valid_turnstile_sitekey (s : List Char) : Bool :=
  if s.isEmpty || s.length < 22 || 35 < s.length then false
  else if !(beginsWith (lowerL s) ['0', 'x']) then false
  else if 22 ≤ s.length && s.length ≤ 30 then (s.drop 2).all isAlnumChar
  else false

/-- Modelled from the spec: the acceptance condition claim C1 states
(total length between 22 and 35 inclusive, case-insensitive 0x prefix,
alphanumeric suffix), for comparison with the source validator. -/
def claimedSitekeyValid (s : List Char) : Bool :=
  22 ≤ s.length && s.length ≤ 35 &&
    beginsWith (lowerL s) ['0', 'x'] && (s.drop 2).all isAlnumChar

/-- The acceptance condition the source validator actually implements:
same shape as claimedSitekeyValid but with upper length bound 30. -/
def amendedSitekeyValid (s : List Char) : Bool :=
  22 ≤ s.length && s.length ≤ 30 &&
    beginsWith (lowerL s) ['0', 'x'] && (s.drop 2).all isAlnumChar

example : is_valid_turnstile_sitekey "0x4AAAAAAADnPIDROrmt1Wwj".toList = true := by decide

example : is_valid_turnstile_sitekey "0xAAAAAAAAAAAAAAAAAAAAAAAAAAAAA".toList = false := by decide

example : claimedSitekeyValid "0xAAAAAAAAAAAAAAAAAAAAAAAAAAAAA".toList = true := by decide

/-- Match of the regex of a slash, a captured group of 0x followed by at
least 20 alphanumerics, and a closing slash, anchored at the head of the
list (with re.IGNORECASE the x also matches X).  Backtracking note: the
quantified class excludes the slash, so the only possible match takes
the maximal alphanumeric run and requires the next character to be a
slash; the captured group is returned. -/
def p1MatchHere : List Char → Option (List Char)
  | '/' :: c0 :: c1 :: rest =>
      if c0 = '0' && (c1 = 'x' || c1 = 'X') then
        let run := rest.takeWhile isAlnumChar
        if 20 ≤ run.length && (rest.drop run.length).head? = some '/' then
          some (c0 :: c1 :: run)
        else none
      else none
  | _ => none

/-- re.search for the first pattern of _extract_sitekey_from_url:
scan positions left to right, return the first captured group. -/
def searchP1 : List Char → Option (List Char)
  | [] => none
  | l@(_ :: t) =>
      match p1MatchHere l with
      | some g => some g
      | none => searchP1 t

/-- Match at the head for the second pattern: same as p1MatchHere but
the group may also be closed by the end of the string. -/
def p2MatchHere : List Char → Option (List Char)
  | '/' :: c0 :: c1 :: rest =>
      if c0 = '0' && (c1 = 'x' || c1 = 'X') then
        let run := rest.takeWhile isAlnumChar
        let after := rest.drop run.length
        if 20 ≤ run.length && (after.head? = some '/' || after.isEmpty) then
          some (c0 :: c1 :: run)
        else none
      else none
  | _ => none

/-- re.search for the second pattern of _extract_sitekey_from_url. -/
def searchP2 : List Char → Option (List Char)
  | [] => none
  | l@(_ :: t) =>
      match p2MatchHere l with
      | some g => some g
      | none => searchP2 t

/-- Match at the head for the third pattern: the literal sitekey=
(case-insensitive) followed by a captured nonempty maximal run of
characters other than the ampersand. -/
def p3MatchHere (l : List Char) : Option (List Char) :=
  if lowerL (l.take 8) = "sitekey=".toList then
    let g := (l.drop 8).takeWhile (fun c => c ≠ '&')
    if g.isEmpty then none else some g
  else none

/-- re.search for the third pattern of _extract_sitekey_from_url. -/
def searchP3 : List Char → Option (List Char)
  | [] => none
  | l@(_ :: t) =>
      match p3MatchHere l with
      | some g => some g
      | none => searchP3 t

/-- The recurring idiom of cloudflareSolver.py: keep a regex match only
if _is_valid_turnstile_sitekey accepts it, otherwise fall through. -/
def guardValid : Option (List Char) → Option (List Char)
  | some c => if is_valid_turnstile_sitekey c then some c else none
  | none => none

/-- First-some choice between two options, modelling the sequential
fall-through of the extraction attempts in the source. -/
def orElseO : Option (List Char) → Option (List Char) → Option (List Char)
  | some x, _ => some x
  | none, b => b

/-- Model of _extract_sitekey_from_url (src/cloudflareSolver.py lines
144-190): return None for the empty URL or a URL not containing the
word turnstile case-insensitively; otherwise try the path-segment
pattern, then the end-of-URL pattern, then the sitekey= query pattern,
each kept only when the validator accepts the captured group. -/
def extract_sitekey_from_url (url : List Char) : Option (List Char) :=
  if url.isEmpty then none
  else if !(containsSub "turnstile".toList (lowerL url)) then none
  else
    orElseO (guardValid (searchP1 url))
      (orElseO (guardValid (searchP2 url))
        (guardValid (searchP3 url)))

example :
    extract_sitekey_from_url
      "https://challenges.cloudflare.com/turnstile/f/0x4AAAAAAADnPIDROrmt1Wwj/light".toList
      = some "0x4AAAAAAADnPIDROrmt1Wwj".toList := by decide

example :
    extract_sitekey_from_url "https://example.com/0x4AAAAAAADnPIDROrmt1Wwj/".toList
      = none := by decide

/-- Python regex whitespace class, restricted to ASCII. -/
def isSpaceChar (c : Char) : Bool :=
  c = ' ' || c = '\t' || c = '\n' || c = '\r' || c = '\x0B' || c = '\x0C'

/-- Double or single quote, as in the quote classes of the sitekey
assignment pattern of _extract_sitekey_from_network_data. -/
def isQuoteChar (c : Char) : Bool :=
  c = '"' || c = '\''

/-- Characters admitted in the captured group of the assignment
pattern: anything except quotes and whitespace. -/
def assignGroupChar (c : Char) : Bool :=
  !(isQuoteChar c || isSpaceChar c)

/-- Match at the head for the bare pattern of 0x followed by at least 20
alphanumerics (no anchors, whole match returned): the match takes the
maximal alphanumeric run after the case-insensitive 0x. -/
def bareMatchHere : List Char → Option (List Char)
  | c0 :: c1 :: rest =>
      if c0 = '0' && (c1 = 'x' || c1 = 'X') then
        let run := rest.takeWhile isAlnumChar
        if 20 ≤ run.length then some (c0 :: c1 :: run) else none
      else none
  | _ => none

/-- re.search for the bare 0x pattern. -/
def searchBare : List Char → Option (List Char)
  | [] => none
  | l@(_ :: t) =>
      match bareMatchHere l with
      | some g => some g
      | none => searchBare t

/-- Remainder of the assignment pattern after the literal sitekey and
optional opening quote: optional whitespace, a colon or equals sign,
optional whitespace again, then an optional quote and a captured
nonempty run of group characters.
Backtracking note: when the character after the separator is a quote it
must be consumed, since a quote can never start the captured group. -/
def assignTail (l2 : List Char) : Option (List Char) :=
  match l2.dropWhile isSpaceChar with
  | c :: l4 =>
      if c = ':' || c = '=' then
        match l4.dropWhile isSpaceChar with
        | q :: l5 =>
            if isQuoteChar q then
              let g := l5.takeWhile assignGroupChar
              if g.isEmpty then none else some g
            else
              let g := (q :: l5).takeWhile assignGroupChar
              if g.isEmpty then none else some g
        | [] => none
      else none
  | [] => none

/-- Match at the head for the assignment pattern: the case-insensitive
literal sitekey, an optional quote, then assignTail.  Backtracking
note: when the optional quote is present but assignTail fails after it,
the quoteless alternative also fails, since a quote is neither
whitespace nor a separator. -/
def assignMatchHere (l : List Char) : Option (List Char) :=
  if lowerL (l.take 7) = "sitekey".toList then
    match l.drop 7 with
    | q :: t => if isQuoteChar q then assignTail t else assignTail (q :: t)
    | [] => none
  else none

/-- re.search for the assignment pattern. -/
def searchAssign : List Char → Option (List Char)
  | [] => none
  | l@(_ :: t) =>
      match assignMatchHere l with
      | some g => some g
      | none => searchAssign t

/-- One captured network request or response, as the dictionaries built
by the handlers in setup_network_monitoring: a request carries url,
post data and headers; a response carries url, a truncated body and
headers.  Absent or None-valued entries are modelled as none. -/
structure NetworkData where
  url : List Char
  postData : Option (List Char)
  body : Option (List Char)
  headers : List (List Char × List Char)
deriving DecidableEq

/-- The header loop of _extract_sitekey_from_network_data: for each
header in order, return the value if the name contains sitekey and the
value validates, otherwise search the value for the bare pattern and
return a validated match, otherwise continue. -/
def headersScan : List (List Char × List Char) → Option (List Char)
  | [] => none
  | (k, v) :: rest =>
      if containsSub "sitekey".toList (lowerL k) && is_valid_turnstile_sitekey v then
        some v
      else
        match guardValid (searchBare v) with
        | some c => some c
        | none => headersScan rest

/-- Model of _extract_sitekey_from_network_data (src/cloudflareSolver.py
lines 192-254): a prioritized URL check for Turnstile-tagged URLs
containing 0x, then the unconditional URL check, then the bare and
assignment patterns over the post data and over the body (both only for
Turnstile-tagged URLs), then the header loop; every candidate passes
through the validator before being returned. -/
def extract_sitekey_from_network_data (d : NetworkData) : Option (List Char) :=
  orElseO
    (if containsSub "turnstile".toList (lowerL d.url)
        && containsSub "0x".toList (lowerL d.url) then
      guardValid (extract_sitekey_from_url d.url)
    else none)
    (orElseO (guardValid (extract_sitekey_from_url d.url))
      (orElseO
        (if !(d.postData.getD []).isEmpty
            && containsSub "turnstile".toList (lowerL d.url) then
          orElseO (guardValid (searchBare (d.postData.getD [])))
            (guardValid (searchAssign (d.postData.getD [])))
        else none)
        (orElseO
          (if !(d.body.getD []).isEmpty
              && containsSub "turnstile".toList (lowerL d.url) then
            orElseO (guardValid (searchBare (d.body.getD [])))
              (guardValid (searchAssign (d.body.getD [])))
          else none)
          (headersScan d.headers))))

example :
    extract_sitekey_from_network_data
      { url := "https://x.test/turnstile".toList,
        postData := some "sitekey=0x4AAAAAAADnPIDROrmt1Wwj".toList,
        body := none, headers := [] }
      = some "0x4AAAAAAADnPIDROrmt1Wwj".toList := by decide

/-- A raw browser network event delivered to the handlers registered by
setup_network_monitoring: a request with url, optional post data and
headers, or a response with url, optional body text and headers. -/
inductive NetEvent where
  | request (url : List Char) (postData : Option (List Char))
      (headers : List (List Char × List Char))
  | response (url : List Char) (body : Option (List Char))
      (headers : List (List Char × List Char))
deriving DecidableEq

/-- The mutable fields of CloudflareTurnstileExtractor touched by the
handlers and by get_sitekey. -/
structure ExtractorState where
  sitekey_from_network : Option (List Char)
  captured_requests : List NetworkData
deriving DecidableEq

/-- The state CloudflareTurnstileExtractor.__init__ establishes. -/
def initExtractor : ExtractorState :=
  { sitekey_from_network := none, captured_requests := [] }

/-- One handler invocation (src/cloudflareSolver.py lines 47-109): a
request whose URL contains the challenge host or, lowercased, the word
turnstile is appended to captured_requests and mined for a sitekey; a
response with such a URL is mined (body truncated to 1000 characters)
but not appended; everything else is ignored. -/
def stepEvent (st : ExtractorState) : NetEvent → ExtractorState
  | NetEvent.request url pd hs =>
      if containsSub "challenges.cloudflare.com".toList url
          || containsSub "turnstile".toList (lowerL url) then
        let info : NetworkData :=
          { url := url, postData := pd, body := none, headers := hs }
        let st1 := { st with captured_requests := st.captured_requests ++ [info] }
        match extract_sitekey_from_network_data info with
        | some sk => { st1 with sitekey_from_network := some sk }
        | none => st1
      else st
  | NetEvent.response url bd hs =>
      if containsSub "challenges.cloudflare.com".toList url
          || containsSub "turnstile".toList (lowerL url) then
        let info : NetworkData :=
          { url := url, postData := none,
            body := bd.map (List.take 1000), headers := hs }
        match extract_sitekey_from_network_data info with
        | some sk => { st with sitekey_from_network := some sk }
        | none => st
      else st

/-- Deliver a list of events in order. -/
def runEvents (st : ExtractorState) (evs : List NetEvent) : ExtractorState :=
  evs.foldl stepEvent st

/-- A request is Turnstile-tagged when its URL, lowercased, contains the
word turnstile. -/
def taggedReq (r : NetworkData) : Bool :=
  containsSub "turnstile".toList (lowerL r.url)

/-- The scanning loops of get_sitekey: extract from each request in
order and return the first candidate the validator accepts. -/
def scanRequests : List NetworkData → Option (List Char)
  | [] => none
  | r :: rest =>
      match guardValid (extract_sitekey_from_network_data r) with
      | some sk => some sk
      | none => scanRequests rest

/-- The pre-wait buffered check of get_sitekey: when any requests are
buffered, scan the Turnstile-tagged ones first, then the others. -/
def checkBuffered (reqs : List NetworkData) : Option (List Char) :=
  if reqs.isEmpty then none
  else
    orElseO (scanRequests (reqs.filter taggedReq))
      (scanRequests (reqs.filter (fun r => !taggedReq r)))

/-- The post-wait final check of get_sitekey: one pass over the
Turnstile-tagged requests followed by the others. -/
def finalCheck (reqs : List NetworkData) : Option (List Char) :=
  if reqs.isEmpty then none
  else scanRequests (reqs.filter taggedReq ++ reqs.filter (fun r => !taggedReq r))

/-- Model of get_sitekey (src/cloudflareSolver.py lines 256-328) on a
state st, with arrivals the events delivered during the wait: return
the cached sitekey if set; otherwise scan the buffered requests,
Turnstile-tagged first; otherwise wait (delivering arrivals), then
return the now-cached sitekey if the handlers set one, and finally
re-scan everything buffered. -/
def get_sitekey (st : ExtractorState) (arrivals : List NetEvent) : Option (List Char) :=
  match st.sitekey_from_network with
  | some sk => some sk
  | none =>
    match checkBuffered st.captured_requests with
    | some sk => some sk
    | none =>
      match (runEvents st arrivals).sitekey_from_network with
      | some sk => some sk
      | none => finalCheck (runEvents st arrivals).captured_requests

example :
    get_sitekey initExtractor
      [NetEvent.request "https://x.test/turnstile/0x4AAAAAAADnPIDROrmt1Wwj/a".toList
        none []]
      = some "0x4AAAAAAADnPIDROrmt1Wwj".toList := by decide

/-- The character substitution of get_session_path: dots become
underscores (str.replace with single-character arguments). -/
def safeChar (c : Char) : Char :=
  if c = '.' then '_' else c

/-- Model of get_session_path (src/cloudflare_utils.py lines 18-21):
the storage key for a domain, a fixed stem, the domain with dots
replaced by underscores, and a fixed extension. -/
def get_session_path (domain : List Char) : List Char :=
  "cloudflare_".toList ++ domain.map safeChar ++ ".json".toList

/-- One cookie of a stored session; only the name takes part in the
cf_clearance check of load_cloudflare_session. -/
structure Cookie where
  name : List Char
  value : List Char
deriving DecidableEq

/-- The state of one session file on disk: absent, present but not
valid JSON, or parsed with its cookie list (the cookies entry of the
stored object, defaulting to empty). -/
inductive SessionFile where
  | missing
  | invalidJson
  | parsed (cookies : List Cookie)
deriving DecidableEq

/-- Path.exists for a modelled session file. -/
def fileExists : SessionFile → Bool
  | SessionFile.missing => false
  | _ => true

/-- Model of load_cloudflare_session (src/cloudflare_utils.py lines
50-95) acting on the file stored at the domain's path: a missing file
loads nothing; a file that is not valid JSON is deleted and loads
nothing; a parsed file loads its cookies exactly when one of them is
named cf_clearance, and is left in place either way.  The result pairs
the loaded session with the file state afterwards. -/
def load_cloudflare_session :
    SessionFile → Option (List Cookie) × SessionFile
  | SessionFile.missing => (none, SessionFile.missing)
  | SessionFile.invalidJson => (none, SessionFile.missing)
  | SessionFile.parsed cookies =>
      if cookies.any (fun c => c.name = "cf_clearance".toList) then
        (some cookies, SessionFile.parsed cookies)
      else
        (none, SessionFile.parsed cookies)

/-- load_cloudflare_session keyed by domain over a store mapping paths
to file states. -/
def loadForDomain (store : List Char → SessionFile) (domain : List Char) :
    Option (List Cookie) × SessionFile :=
  load_cloudflare_session (store (get_session_path domain))

/-- Model of clear_session (src/cloudflare_utils.py lines 158-181): an
existing file is unlinked and True returned; a missing file returns
False. -/
def clear_session : SessionFile → Bool × SessionFile
  | f => if fileExists f then (true, SessionFile.missing) else (false, f)

/-- clear_session keyed by domain over a store. -/
def clearForDomain (store : List Char → SessionFile) (domain : List Char) :
    Bool × SessionFile :=
  clear_session (store (get_session_path domain))

/-- The observable page state is_session_valid consults: the URL at
entry, the result of reading the rendered content and the body inner
text (none when either read faults), and the URL after the settle
wait. -/
structure PageState where
  url : List Char
  contentRead : Option (List Char × List Char)
  finalUrl : List Char
deriving DecidableEq

/-- The fixed challenge indicator phrases of is_session_valid. -/
def challengeIndicators : List (List Char) :=
  ["checking your browser".toList, "just a moment".toList, "cf-challenge".toList,
    "cf-browser-verification".toList, "turnstile".toList]

/-- Model of is_session_valid (src/cloudflare_utils.py lines 98-155):
False when the challenge pattern occurs in the entry URL; otherwise the
settle wait runs and the page content and inner text are read inside an
inner try, returning False when an indicator occurs in either
lowercased text, while a fault in that read is swallowed (the check is
skipped); finally False when the pattern occurs in the post-wait URL,
else True. -/
def is_session_valid (challengePattern : List Char) (p : PageState) : Bool :=
  if containsSub challengePattern p.url then false
  else
    let indicatorHit :=
      match p.contentRead with
      | some (content, text) =>
          challengeIndicators.any (fun ind =>
            containsSub ind (lowerL (lowerL text)) || containsSub ind (lowerL content))
      | none => false
    if indicatorHit then false
    else if containsSub challengePattern p.finalUrl then false
    else true

/-- The default challenge URL pattern. -/
def defaultChallengePattern : List Char :=
  "challenges.cloudflare.com".toList

example :
    is_session_valid defaultChallengePattern
      { url := "https://ecorp.sos.ga.gov/BusinessSearch".toList,
        contentRead := some ("<html>result".toList, "result".toList),
        finalUrl := "https://ecorp.sos.ga.gov/BusinessSearch".toList } = true := by decide

/-- The createTask acknowledgment of the solving service. -/
structure CreateResponse where
  errorId : Int
  taskId : Option Nat
  errorDescription : String
deriving DecidableEq

/-- One getTaskResult response of the solving service. -/
structure PollResponse where
  status : String
  solutionToken : Option String
  solutionUserAgent : Option String
  errorDescription : String
deriving DecidableEq

/-- The external world solve_cloudflare_challenge interacts with: the
createTask acknowledgment, the poll response for each attempt index,
whether the in-page callback injection reports success, and whether the
page validates after injection. -/
structure SolveEnv where
  createResp : CreateResponse
  pollResp : Nat → PollResponse
  injectionSuccess : Bool
  sessionValidAfterInjection : Bool

/-- How one run of the poll loop ended. -/
inductive LoopExit where
  | solved
  | errored (desc : String)
  | timedOut
deriving DecidableEq

/-- The poll loop of solve_cloudflare_challenge (src/cloudflareSolver.py
lines 911-961), returning the exit and the number of polls issued.  A
ready status with a token leads to injection; when injection succeeds
and the page then validates, the session is saved and the loop returns
solved, otherwise the loop silently continues to the next attempt.  A
processing status continues; any other status raises (errored).
Exhausting the attempts raises a timeout. -/
def pollLoop (env : SolveEnv) : Nat → Nat → LoopExit × Nat
  | _, 0 => (LoopExit.timedOut, 0)
  | attempt, fuel + 1 =>
      if (env.pollResp attempt).status = "ready" then
        match (env.pollResp attempt).solutionToken with
        | some _ =>
            if env.injectionSuccess && env.sessionValidAfterInjection then
              (LoopExit.solved, 1)
            else
              ((pollLoop env (attempt + 1) fuel).1, (pollLoop env (attempt + 1) fuel).2 + 1)
        | none =>
            ((pollLoop env (attempt + 1) fuel).1, (pollLoop env (attempt + 1) fuel).2 + 1)
      else if (env.pollResp attempt).status = "processing" then
        ((pollLoop env (attempt + 1) fuel).1, (pollLoop env (attempt + 1) fuel).2 + 1)
      else (LoopExit.errored (env.pollResp attempt).errorDescription, 1)

/-- Outcome of one solve call: the returned boolean, the number of
createTask requests issued, and the number of poll requests issued. -/
structure SolveOutcome where
  result : Bool
  createCalls : Nat
  pollCalls : Nat
deriving DecidableEq

/-- Model of solve_cloudflare_challenge (src/cloudflareSolver.py lines
838-965): with the credential absent from the environment, or empty, or
the client library unavailable, return False at once without any
request; otherwise submit the task (one request), raise on a nonzero
errorId (caught: False), and run the poll loop with 30 attempts; only a
solved exit yields True, errors and timeouts are caught and yield
False. -/
def solve_cloudflare_challenge (apiKey : Option String) (available : Bool)
    (env : SolveEnv) : SolveOutcome :=
  match apiKey with
  | none => { result := false, createCalls := 0, pollCalls := 0 }
  | some k =>
      if k = "" ∨ available = false then
        { result := false, createCalls := 0, pollCalls := 0 }
      else if env.createResp.errorId ≠ 0 then
        { result := false, createCalls := 1, pollCalls := 0 }
      else
        match (pollLoop env 0 30).1 with
        | LoopExit.solved =>
            { result := true, createCalls := 1, pollCalls := (pollLoop env 0 30).2 }
        | _ => { result := false, createCalls := 1, pollCalls := (pollLoop env 0 30).2 }

example :
    (solve_cloudflare_challenge (some "k") true
      { createResp := { errorId := 0, taskId := some 7, errorDescription := "" },
        pollResp := fun _ =>
          { status := "processing", solutionToken := none,
            solutionUserAgent := none, errorDescription := "" },
        injectionSuccess := true, sessionValidAfterInjection := true }).result
      = false := by decide

/-- A sitekey surviving the validation guard is accepted by the
validator. -/
theorem guardValid_valid {o : Option (List Char)} {s : List Char}
    (h : guardValid o = some s) : is_valid_turnstile_sitekey s = true := by
  cases o with
  | none => simp [guardValid] at h
  | some c =>
      simp only [guardValid] at h
      split at h
      · rename_i hv
        cases h
        exact hv
      · exact absurd h (by simp)

/-- Validity is preserved by the sequential fall-through combinator. -/
theorem orElseO_valid {a b : Option (List Char)} {s : List Char}
    (ha : ∀ t, a = some t → is_valid_turnstile_sitekey t = true)
    (hb : ∀ t, b = some t → is_valid_turnstile_sitekey t = true)
    (h : orElseO a b = some s) : is_valid_turnstile_sitekey s = true := by
  cases a with
  | some x =>
      simp only [orElseO] at h
      exact ha s h
  | none =>
      simp only [orElseO] at h
      exact hb s h

/-- Validity is preserved by a conditional guard around an extraction
attempt. -/
theorem ifOpt_valid {c : Prop} [Decidable c] {a : Option (List Char)} {s : List Char}
    (ha : ∀ t, a = some t → is_valid_turnstile_sitekey t = true)
    (h : (if c then a else none) = some s) : is_valid_turnstile_sitekey s = true := by
  split at h
  · exact ha s h
  · exact absurd h (by simp)

/-- Every sitekey _extract_sitekey_from_url returns is accepted by the
validator. -/
theorem extract_url_valid {u s : List Char}
    (h : extract_sitekey_from_url u = some s) :
    is_valid_turnstile_sitekey s = true := by
  unfold extract_sitekey_from_url at h
  split at h
  · exact absurd h (by simp)
  · split at h
    · exact absurd h (by simp)
    · exact orElseO_valid (fun t ht => guardValid_valid ht)
        (fun t ht =>
          orElseO_valid (fun r hr => guardValid_valid hr)
            (fun r hr => guardValid_valid hr) ht) h

/-- Every sitekey the header loop returns is accepted by the
validator. -/
theorem headersScan_valid :
    ∀ (hs : List (List Char × List Char)) {s : List Char},
      headersScan hs = some s → is_valid_turnstile_sitekey s = true := by
  intro hs
  induction hs with
  | nil => intro s h; simp [headersScan] at h
  | cons p rest ih =>
      intro s h
      obtain ⟨k, v⟩ := p
      simp only [headersScan] at h
      split at h
      · rename_i hcond
        cases h
        exact (Bool.and_eq_true _ _ |>.mp hcond).2
      · cases hg : guardValid (searchBare v) with
        | some c =>
            simp only [hg] at h
            cases h
            exact guardValid_valid hg
        | none =>
            simp only [hg] at h
            exact ih h

/-- Every sitekey _extract_sitekey_from_network_data returns is
accepted by the validator. -/
theorem extract_network_valid {d : NetworkData} {s : List Char}
    (h : extract_sitekey_from_network_data d = some s) :
    is_valid_turnstile_sitekey s = true := by
  unfold extract_sitekey_from_network_data at h
  refine orElseO_valid (fun t ht => ifOpt_valid (fun r hr => guardValid_valid hr) ht)
    (fun t ht =>
      orElseO_valid (fun r hr => guardValid_valid hr)
        (fun r hr =>
          orElseO_valid
            (fun q hq =>
              ifOpt_valid
                (fun w hw =>
                  orElseO_valid (fun z hz => guardValid_valid hz)
                    (fun z hz => guardValid_valid hz) hw) hq)
            (fun q hq =>
              orElseO_valid
                (fun w hw =>
                  ifOpt_valid
                    (fun z hz =>
                      orElseO_valid (fun y hy => guardValid_valid hy)
                        (fun y hy => guardValid_valid hy) hz) hw)
                (fun w hw => headersScan_valid _ hw) hq) hr) ht) h

/-- Every sitekey the request scanning loop returns is accepted by the
validator. -/
theorem scanRequests_valid :
    ∀ (reqs : List NetworkData) {s : List Char},
      scanRequests reqs = some s → is_valid_turnstile_sitekey s = true := by
  intro reqs
  induction reqs with
  | nil => intro s h; simp [scanRequests] at h
  | cons r rest ih =>
      intro s h
      simp only [scanRequests] at h
      cases hg : guardValid (extract_sitekey_from_network_data r) with
      | some c =>
          simp only [hg] at h
          cases h
          exact guardValid_valid hg
      | none =>
          simp only [hg] at h
          exact ih h

/-- Every sitekey of the pre-wait buffered check is accepted by the
validator. -/
theorem checkBuffered_valid {reqs : List NetworkData} {s : List Char}
    (h : checkBuffered reqs = some s) : is_valid_turnstile_sitekey s = true := by
  unfold checkBuffered at h
  split at h
  · exact absurd h (by simp)
  · exact orElseO_valid (fun t ht => scanRequests_valid _ ht)
      (fun t ht => scanRequests_valid _ ht) h

/-- Every sitekey of the post-wait final check is accepted by the
validator. -/
theorem finalCheck_valid {reqs : List NetworkData} {s : List Char}
    (h : finalCheck reqs = some s) : is_valid_turnstile_sitekey s = true := by
  unfold finalCheck at h
  split at h
  · exact absurd h (by simp)
  · exact scanRequests_valid _ h

/-- Invariant of the extractor state: a cached sitekey is accepted by
the validator. -/
def cacheOk (st : ExtractorState) : Prop :=
  ∀ s, st.sitekey_from_network = some s → is_valid_turnstile_sitekey s = true

/-- The handlers preserve the cache invariant: the cache is only ever
overwritten with an extraction result, which is validated. -/
theorem stepEvent_cacheOk {st : ExtractorState} (h : cacheOk st) (e : NetEvent) :
    cacheOk (stepEvent st e) := by
  intro s hsome
  cases e with
  | request url pd hs =>
      simp only [stepEvent] at hsome
      split at hsome
      · cases hx : extract_sitekey_from_network_data
            { url := url, postData := pd, body := none, headers := hs } with
        | some sk =>
            simp only [hx] at hsome
            cases hsome
            exact extract_network_valid hx
        | none =>
            simp only [hx] at hsome
            exact h s hsome
      · exact h s hsome
  | response url bd hs =>
      simp only [stepEvent] at hsome
      split at hsome
      · cases hx : extract_sitekey_from_network_data
            { url := url, postData := none,
              body := bd.map (List.take 1000), headers := hs } with
        | some sk =>
            simp only [hx] at hsome
            cases hsome
            exact extract_network_valid hx
        | none =>
            simp only [hx] at hsome
            exact h s hsome
      · exact h s hsome

/-- Delivering any list of events preserves the cache invariant. -/
theorem runEvents_cacheOk {st : ExtractorState} (h : cacheOk st)
    (evs : List NetEvent) : cacheOk (runEvents st evs) := by
  induction evs generalizing st with
  | nil => exact h
  | cons e rest ih => exact ih (stepEvent_cacheOk h e)

/-- The initial extractor state satisfies the cache invariant. -/
theorem initExtractor_cacheOk : cacheOk initExtractor := by
  intro s hsome
  simp [initExtractor] at hsome

/-- C1 counterexample: the string 0x followed by twenty-nine letters
has total length 31, a 0x prefix and an alphanumeric suffix, so the
acceptance condition stated by the claim (length up to 35) accepts it,
but the source validator rejects it. -/
theorem sitekey_validator_length31_refutes_claim :
    claimedSitekeyValid "0xAAAAAAAAAAAAAAAAAAAAAAAAAAAAA".toList = true ∧
    is_valid_turnstile_sitekey "0xAAAAAAAAAAAAAAAAAAAAAAAAAAAAA".toList = false := by
  constructor
  · decide
  · decide

/-- C1 amended: the validator accepts a string exactly when its total
length is between 22 and 30 inclusive, it starts with the
case-insensitive prefix 0x, and every character after the prefix is
alphanumeric. -/
theorem sitekey_validator_characterization :
    ∀ s : List Char, is_valid_turnstile_sitekey s = amendedSitekeyValid s := by
  intro s
  unfold is_valid_turnstile_sitekey amendedSitekeyValid
  by_cases h22 : 22 ≤ s.length
  · by_cases h30 : s.length ≤ 30
    · have h35 : ¬ 35 < s.length := by omega
      have hlt : ¬ s.length < 22 := by omega
      have hne : s.isEmpty = false := by
        cases s with
        | nil => simp at h22
        | cons a t => rfl
      cases hb : beginsWith (lowerL s) ['0', 'x'] <;>
        simp [hne, hb, h22, h30, hlt, h35]
    · by_cases h35 : 35 < s.length
      · have hlt : ¬ s.length < 22 := by omega
        simp [h35, h30]
      · have hlt : ¬ s.length < 22 := by omega
        have hne : s.isEmpty = false := by
          cases s with
          | nil => simp at h22
          | cons a t => rfl
        simp [hne, hlt, h35, h30]
  · have hlt : s.length < 22 := by omega
    simp [hlt, h22]

/-- C2 counterexample: a page whose content read faults (contentRead is
none) while neither URL matches the challenge pattern makes
is_session_valid return True, although the claim requires every such
internal fault to yield False. -/
theorem session_valid_content_fault_refutes_claim :
    is_session_valid defaultChallengePattern
        { url := "https://example.com/a".toList, contentRead := none,
          finalUrl := "https://example.com/a".toList } = true ∧
    ({ url := "https://example.com/a".toList, contentRead := none,
        finalUrl := "https://example.com/a".toList } : PageState).contentRead
      = none := by
  constructor
  · decide
  · rfl

/-- C2 amended: a fault while reading or inspecting the page content is
treated permissively: the indicator check is skipped and the result is
decided by the URL checks alone, so is_session_valid returns True
exactly when the challenge pattern occurs in neither the entry URL nor
the post-wait URL.  (Only faults outside the content-inspection block
reach the outer handler that returns False.) -/
theorem session_valid_content_fault_permissive (pat : List Char) (p : PageState)
    (h : p.contentRead = none) :
    is_session_valid pat p
      = (!containsSub pat p.url && !containsSub pat p.finalUrl) := by
  unfold is_session_valid
  rw [h]
  cases h1 : containsSub pat p.url <;>
    cases h2 : containsSub pat p.finalUrl <;>
      simp [h1, h2, challengeIndicators]

/-- C2 amended witness at a concrete faulting page. -/
theorem session_valid_content_fault_permissive_witness :
    is_session_valid defaultChallengePattern
        { url := "https://ecorp.sos.ga.gov/".toList, contentRead := none,
          finalUrl := "https://ecorp.sos.ga.gov/".toList }
      = (!containsSub defaultChallengePattern "https://ecorp.sos.ga.gov/".toList
          && !containsSub defaultChallengePattern "https://ecorp.sos.ga.gov/".toList) :=
  session_valid_content_fault_permissive defaultChallengePattern
    { url := "https://ecorp.sos.ga.gov/".toList, contentRead := none,
      finalUrl := "https://ecorp.sos.ga.gov/".toList } rfl

/-- C3 counterexample: the distinct domains a.b and a_b are mapped to
the same storage key, so the mapping is not collision-free. -/
theorem session_path_collision :
    get_session_path "a.b".toList = get_session_path "a_b".toList ∧
    "a.b".toList ≠ "a_b".toList := by
  constructor
  · decide
  · decide

/-- The substitution of get_session_path is injective away from the
underscore. -/
theorem safeChar_inj {a b : Char} (ha : a ≠ '_') (hb : b ≠ '_')
    (h : safeChar a = safeChar b) : a = b := by
  by_cases h1 : a = '.'
  · by_cases h2 : b = '.'
    · rw [h1, h2]
    · exfalso
      rw [safeChar, if_pos h1, safeChar, if_neg h2] at h
      exact hb h.symm
  · by_cases h2 : b = '.'
    · exfalso
      rw [safeChar, if_neg h1, safeChar, if_pos h2] at h
      exact ha h
    · rw [safeChar, if_neg h1, safeChar, if_neg h2] at h
      exact h

/-- Mapping safeChar over underscore-free domains is injective. -/
theorem map_safeChar_inj :
    ∀ (d1 d2 : List Char), '_' ∉ d1 → '_' ∉ d2 →
      d1.map safeChar = d2.map safeChar → d1 = d2 := by
  intro d1
  induction d1 with
  | nil =>
      intro d2 _ _ h
      cases d2 with
      | nil => rfl
      | cons b t => simp at h
  | cons a t ih =>
      intro d2 h1 h2 h
      cases d2 with
      | nil => simp at h
      | cons b u =>
          simp only [List.map_cons, List.cons.injEq] at h
          have ha : a ≠ '_' := fun hc => h1 (hc ▸ List.mem_cons_self a t)
          have hb : b ≠ '_' := fun hc => h2 (hc ▸ List.mem_cons_self b u)
          have h1t : '_' ∉ t := fun hc => h1 (List.mem_cons_of_mem a hc)
          have h2u : '_' ∉ u := fun hc => h2 (List.mem_cons_of_mem b hc)
          rw [safeChar_inj ha hb h.1, ih u h1t h2u h.2]

/-- C3 amended: the storage-key mapping is collision-free on domains
that contain no underscore (dots are substituted by underscores, so two
domains differing only in a dot versus an underscore collide, and no
other collisions exist). -/
theorem session_path_injective_without_underscore (d1 d2 : List Char)
    (h1 : '_' ∉ d1) (h2 : '_' ∉ d2) (hne : d1 ≠ d2) :
    get_session_path d1 ≠ get_session_path d2 := by
  intro heq
  apply hne
  unfold get_session_path at heq
  have heqA : "cloudflare_".toList ++ (d1.map safeChar ++ ".json".toList)
      = "cloudflare_".toList ++ (d2.map safeChar ++ ".json".toList) := by
    simpa [List.append_assoc] using heq
  have hmid : d1.map safeChar ++ ".json".toList
      = d2.map safeChar ++ ".json".toList := List.append_cancel_left heqA
  exact map_safeChar_inj d1 d2 h1 h2 (List.append_cancel_right hmid)

/-- C3 amended witness: two concrete underscore-free domains get
distinct storage keys. -/
theorem session_path_injective_witness :
    get_session_path "a.com".toList ≠ get_session_path "b.com".toList :=
  session_path_injective_without_underscore "a.com".toList "b.com".toList
    (by decide) (by decide) (by decide)

/-- C6: for every domain whose session file is present but not valid
JSON, load returns absent and the corrupt file is deleted. -/
theorem load_corrupt_deletes (store : List Char → SessionFile) (domain : List Char)
    (h : store (get_session_path domain) = SessionFile.invalidJson) :
    loadForDomain store domain = (none, SessionFile.missing) := by
  unfold loadForDomain
  rw [h]
  rfl

/-- C6 witness at a concrete corrupt store and domain. -/
theorem load_corrupt_deletes_witness :
    loadForDomain (fun _ => SessionFile.invalidJson) "ecorp.sos.ga.gov".toList
      = (none, SessionFile.missing) :=
  load_corrupt_deletes (fun _ => SessionFile.invalidJson) "ecorp.sos.ga.gov".toList rfl

/-- C7: for every domain whose session file parses but whose cookies
contain no cf_clearance, load returns absent and the file is left in
place unchanged. -/
theorem load_no_clearance_keeps_file (store : List Char → SessionFile)
    (domain : List Char) (cookies : List Cookie)
    (h : store (get_session_path domain) = SessionFile.parsed cookies)
    (hc : cookies.any (fun c => c.name = "cf_clearance".toList) = false) :
    loadForDomain store domain = (none, SessionFile.parsed cookies) := by
  unfold loadForDomain
  rw [h]
  simp only [load_cloudflare_session]
  rw [if_neg (by rw [hc]; simp)]

/-- C7 witness at a concrete clearance-free store and domain. -/
theorem load_no_clearance_keeps_file_witness :
    loadForDomain
        (fun _ => SessionFile.parsed [{ name := "theme".toList, value := "light".toList }])
        "ecorp.sos.ga.gov".toList
      = (none, SessionFile.parsed [{ name := "theme".toList, value := "light".toList }]) :=
  load_no_clearance_keeps_file
    (fun _ => SessionFile.parsed [{ name := "theme".toList, value := "light".toList }])
    "ecorp.sos.ga.gov".toList [{ name := "theme".toList, value := "light".toList }]
    rfl (by decide)

/-- C8: with the solving-service credential absent from the
environment, solve_cloudflare_challenge returns False without issuing
any createTask or poll request, whatever the library availability and
whatever the service would have answered. -/
theorem solve_without_credential_unavailable (available : Bool) (env : SolveEnv) :
    solve_cloudflare_challenge none available env
      = { result := false, createCalls := 0, pollCalls := 0 } := by
  rfl

/-- With every poll answering the given status, the poll loop times out
after exactly its fuel many polls. -/
theorem pollLoop_all_processing (env : SolveEnv)
    (hp : ∀ i, (env.pollResp i).status = "processing") :
    ∀ fuel attempt, pollLoop env attempt fuel = (LoopExit.timedOut, fuel) := by
  intro fuel
  induction fuel with
  | zero => intro a; rfl
  | succ f ih =>
      intro a
      unfold pollLoop
      rw [hp a, if_neg (by decide), if_pos rfl, ih (a + 1)]

/-- C5: when the solving service answers processing on every poll, the
solve call fails (returns False) and issues at most 30 polls, for every
credential state and create acknowledgment. -/
theorem solve_never_ready_times_out (apiKey : Option String) (available : Bool)
    (env : SolveEnv) (hp : ∀ i, (env.pollResp i).status = "processing") :
    (solve_cloudflare_challenge apiKey available env).result = false ∧
    (solve_cloudflare_challenge apiKey available env).pollCalls ≤ 30 := by
  cases apiKey with
  | none => exact ⟨rfl, by simp [solve_cloudflare_challenge]⟩
  | some k =>
      by_cases hk : k = "" ∨ available = false
      · constructor <;> simp [solve_cloudflare_challenge, hk]
      · by_cases hc : env.createResp.errorId = 0
        · have hl := pollLoop_all_processing env hp 30 0
          constructor <;> simp [solve_cloudflare_challenge, hk, hc, hl]
        · constructor <;> simp [solve_cloudflare_challenge, hk, hc]

/-- C5 witness: a concrete environment whose polls all answer
processing makes the solve call fail within the budget. -/
theorem solve_never_ready_times_out_witness :
    (solve_cloudflare_challenge (some "key") true
        { createResp := { errorId := 0, taskId := some 7, errorDescription := "" },
          pollResp := fun _ =>
            { status := "processing", solutionToken := none,
              solutionUserAgent := none, errorDescription := "" },
          injectionSuccess := true, sessionValidAfterInjection := true }).result
      = false ∧
    (solve_cloudflare_challenge (some "key") true
        { createResp := { errorId := 0, taskId := some 7, errorDescription := "" },
          pollResp := fun _ =>
            { status := "processing", solutionToken := none,
              solutionUserAgent := none, errorDescription := "" },
          injectionSuccess := true, sessionValidAfterInjection := true }).pollCalls
      ≤ 30 :=
  solve_never_ready_times_out (some "key") true
    { createResp := { errorId := 0, taskId := some 7, errorDescription := "" },
      pollResp := fun _ =>
        { status := "processing", solutionToken := none,
          solutionUserAgent := none, errorDescription := "" },
      injectionSuccess := true, sessionValidAfterInjection := true }
    (fun _ => rfl)

/-- C10: clear_session returns True exactly when a session file existed
for the domain, and afterwards the file is always absent: False is
returned whenever there was no file, and True only when an existing
file was actually deleted. -/
theorem clear_session_outcome (store : List Char → SessionFile) (domain : List Char) :
    (clearForDomain store domain).1 = fileExists (store (get_session_path domain)) ∧
    (clearForDomain store domain).2 = SessionFile.missing := by
  unfold clearForDomain clear_session
  cases h : store (get_session_path domain) with
  | missing => simp [fileExists]
  | invalidJson => simp [fileExists]
  | parsed cs => simp [fileExists]

/-- C4 counterexample: a Turnstile-tagged URL whose first path-segment
match is an over-long (invalid) 0x run, followed by a valid path
segment of twenty B characters and a differing valid sitekey= query
parameter of twenty C characters.  The claim requires the path-segment
sitekey to be returned, but the search finds only the first (invalid)
path match, falls through, and returns the query-parameter value. -/
theorem extraction_precedence_refuted :
    containsSub "turnstile".toList
        (lowerL "turnstile/0xAAAAAAAAAAAAAAAAAAAAAAAAAAAAAAAAAAAAAAAA/0xBBBBBBBBBBBBBBBBBBBB/?sitekey=0xCCCCCCCCCCCCCCCCCCCC".toList)
      = true ∧
    containsSub "/0xBBBBBBBBBBBBBBBBBBBB/".toList
        "turnstile/0xAAAAAAAAAAAAAAAAAAAAAAAAAAAAAAAAAAAAAAAA/0xBBBBBBBBBBBBBBBBBBBB/?sitekey=0xCCCCCCCCCCCCCCCCCCCC".toList
      = true ∧
    is_valid_turnstile_sitekey "0xBBBBBBBBBBBBBBBBBBBB".toList = true ∧
    is_valid_turnstile_sitekey "0xCCCCCCCCCCCCCCCCCCCC".toList = true ∧
    "0xCCCCCCCCCCCCCCCCCCCC".toList ≠ "0xBBBBBBBBBBBBBBBBBBBB".toList ∧
    extract_sitekey_from_url
        "turnstile/0xAAAAAAAAAAAAAAAAAAAAAAAAAAAAAAAAAAAAAAAA/0xBBBBBBBBBBBBBBBBBBBB/?sitekey=0xCCCCCCCCCCCCCCCCCCCC".toList
      = some "0xCCCCCCCCCCCCCCCCCCCC".toList := by
  refine ⟨by decide, by decide, by decide, by decide, by decide, by decide⟩

/-- C4 amended: for every Turnstile-tagged URL, whenever the leftmost
path-segment match of the 0x pattern captures a group the validator
accepts, extraction returns that group, taking precedence over any
sitekey= query parameter. -/
theorem extraction_path_segment_precedence (url g : List Char)
    (h1 : containsSub "turnstile".toList (lowerL url) = true)
    (h2 : searchP1 url = some g)
    (h3 : is_valid_turnstile_sitekey g = true) :
    extract_sitekey_from_url url = some g := by
  have hne : url.isEmpty = false := by
    cases url with
    | nil => simp [lowerL, containsSub, beginsWith] at h1
    | cons a t => rfl
  unfold extract_sitekey_from_url
  rw [hne, h1, h2]
  simp [guardValid, orElseO, h3]

/-- C4 amended witness: on a Turnstile URL holding both a valid path
segment and a differing valid query parameter, the path segment wins. -/
theorem extraction_path_segment_precedence_witness :
    extract_sitekey_from_url
        "turnstile/0xBBBBBBBBBBBBBBBBBBBB/?sitekey=0xCCCCCCCCCCCCCCCCCCCC".toList
      = some "0xBBBBBBBBBBBBBBBBBBBB".toList :=
  extraction_path_segment_precedence
    "turnstile/0xBBBBBBBBBBBBBBBBBBBB/?sitekey=0xCCCCCCCCCCCCCCCCCCCC".toList
    "0xBBBBBBBBBBBBBBBBBBBB".toList (by decide) (by decide) (by decide)

/-- C9: every sitekey get_sitekey returns, on any extractor state
reached from initialization by delivering any events and with any
events arriving during the wait, is accepted by the validator: the
extractor never returns an unvalidated candidate. -/
theorem get_sitekey_only_validated (evs arrivals : List NetEvent) (s : List Char)
    (h : get_sitekey (runEvents initExtractor evs) arrivals = some s) :
    is_valid_turnstile_sitekey s = true := by
  have hst : cacheOk (runEvents initExtractor evs) :=
    runEvents_cacheOk initExtractor_cacheOk evs
  have hst2 : cacheOk (runEvents (runEvents initExtractor evs) arrivals) :=
    runEvents_cacheOk hst arrivals
  unfold get_sitekey at h
  cases hc1 : (runEvents initExtractor evs).sitekey_from_network with
  | some sk =>
      simp only [hc1] at h
      cases h
      exact hst _ hc1
  | none =>
      simp only [hc1] at h
      cases hc2 : checkBuffered (runEvents initExtractor evs).captured_requests with
      | some sk =>
          simp only [hc2] at h
          cases h
          exact checkBuffered_valid hc2
      | none =>
          simp only [hc2] at h
          cases hc3 : (runEvents (runEvents initExtractor evs) arrivals).sitekey_from_network with
          | some sk =>
              simp only [hc3] at h
              cases h
              exact hst2 _ hc3
          | none =>
              simp only [hc3] at h
              exact finalCheck_valid h

/-- C9 witness: a concrete captured Turnstile request makes get_sitekey
return a key, and the theorem certifies the validator accepts it. -/
theorem get_sitekey_only_validated_witness :
    is_valid_turnstile_sitekey "0x4AAAAAAADnPIDROrmt1Wwj".toList = true :=
  get_sitekey_only_validated
    [NetEvent.request "https://x.test/turnstile/0x4AAAAAAADnPIDROrmt1Wwj/a".toList
      none []]
    [] "0x4AAAAAAADnPIDROrmt1Wwj".toList (by decide)

end CompanyScraper
